import Mathlib

/-!
Verification of the barcode image composition and batch pipeline of
src/streamlit_app.py (promo-barcode-generator).

The program stacks a Code-128 bar image (produced by an external encoder)
above a caption strip, letterboxes the result into an optional target box,
and batches rows into archive entries.

Modelling choices:
* A raster image is its size plus a pixel map; RGB pixels are triples.
* The external symbology encoder and the font-metric query are black boxes
  and enter as parameters (encode, measureText).  Exceptions raised by the
  encoder are modelled with Except and are not caught inside the render
  functions, exactly as in the source.
* Float arithmetic in the scaling step is modelled with exact rational
  arithmetic; int(x) on the nonnegative values involved is Int.toNat of the
  floor.
* The Lanczos resampling of PIL is abstracted: only the size of the resized
  image is relied on; Img.resize fills pixels by nearest sampling.
* draw.text is modelled as painting the measured text bounding box; glyph
  shapes inside the box are abstracted.
* Python string operations (str.strip, str.lower, str.endswith) are modelled
  directly over the character list of the string.
-/

abbrev Color := Nat × Nat × Nat

def white : Color := (255, 255, 255)

def black : Color := (0, 0, 0)

structure Img where
  width : Nat
  height : Nat
  pix : Nat → Nat → Color

def Img.new (w h : Nat) (c : Color) : Img :=
  ⟨w, h, fun _ _ => c⟩

/-- PIL Image.paste at nonnegative offsets.  Every offset computed by the
program is nonnegative (the pasted image never exceeds its canvas, proved
below), so Nat offsets are faithful. -/
def Img.paste (dst src : Img) (x y : Nat) : Img :=
  ⟨dst.width, dst.height, fun i j =>
    if x ≤ i ∧ i < x + src.width ∧ y ≤ j ∧ j < y + src.height then
      src.pix (i - x) (j - y)
    else dst.pix i j⟩

/-- Image.resize: only the output size matters for the theorems below; the
resampling kernel (Lanczos in the source) is abstracted by nearest
sampling. -/
def Img.resize (img : Img) (w h : Nat) : Img :=
  ⟨w, h, fun i j => img.pix (i * img.width / w) (j * img.height / h)⟩

/-- draw.text modelled as painting the measured text box with the ink
color. -/
def drawTextBox (img : Img) (x y w h : Nat) (c : Color) : Img :=
  ⟨img.width, img.height, fun i j =>
    if x ≤ i ∧ i < x + w ∧ y ≤ j ∧ j < y + h then c else img.pix i j⟩

/-- Truthiness of a Python Optional[int]: None and 0 are falsy. -/
def truthy : Option Nat → Bool
  | none => false
  | some n => n != 0

/-- The integer value of an Optional[int] where the source reads it as an
int. -/
def optVal : Option Nat → Nat
  | none => 0
  | some n => n

def text_padding_x : Nat := 10

def text_padding_y : Nat := 5

/-- Step 2 of generate_barcode_image: the caption strip.  Strip width is
max(bar_w, text_w + 2 * text_padding_x), strip height is
text_h + 2 * text_padding_y, background white, and the measured text box is
drawn at text_x = (text_strip_w - text_w) / 2, text_y = text_padding_y. -/
def textStrip (bar_w text_w text_h : Nat) : Img :=
  let text_strip_w := max bar_w (text_w + 2 * text_padding_x)
  let text_strip_h := text_h + 2 * text_padding_y
  let text_img := Img.new text_strip_w text_strip_h white
  let text_x := (text_strip_w - text_w) / 2
  let text_y := text_padding_y
  drawTextBox text_img text_x text_y text_w text_h black

/-- Step 3 of generate_barcode_image: stack the bar image above the caption
strip on a white canvas of size (max(bar_w, text_strip_w), bar_h +
text_strip_h), each pasted horizontally centered. -/
def combinedImage (barcode_img : Img) (text_w text_h : Nat) : Img :=
  let text_img := textStrip barcode_img.width text_w text_h
  let combined_w := max barcode_img.width text_img.width
  let combined_h := barcode_img.height + text_img.height
  let combined := Img.new combined_w combined_h white
  let bar_x := (combined_w - barcode_img.width) / 2
  let text_x_offset := (combined_w - text_img.width) / 2
  (combined.paste barcode_img bar_x 0).paste text_img text_x_offset barcode_img.height

/-- Step 5 of generate_barcode_image: scale selection.  Float arithmetic of
the source is modelled exactly over the rationals, and int truncation of the
nonnegative products is Int.toNat of the floor.  The last branch mirrors the
unreachable final else of the source (the no-target case returned
earlier). -/
def scaledDims (orig_w orig_h : Nat) (width_px height_px : Option Nat) : Nat × Nat :=
  if truthy width_px && truthy height_px then
    let scale : ℚ := min ((optVal width_px : ℚ) / orig_w) ((optVal height_px : ℚ) / orig_h)
    (max 1 (Int.toNat ⌊(orig_w : ℚ) * scale⌋), max 1 (Int.toNat ⌊(orig_h : ℚ) * scale⌋))
  else if truthy width_px && !truthy height_px then
    let scale : ℚ := (optVal width_px : ℚ) / orig_w
    (optVal width_px, max 1 (Int.toNat ⌊(orig_h : ℚ) * scale⌋))
  else if truthy height_px && !truthy width_px then
    let scale : ℚ := (optVal height_px : ℚ) / orig_h
    (max 1 (Int.toNat ⌊(orig_w : ℚ) * scale⌋), optVal height_px)
  else
    (orig_w, orig_h)

/-- The geometry of generate_barcode_image: the bar image returned by the
external encoder (step 1) and the measured caption size (step 2) enter as
inputs; steps 2-6 follow the source.  The paste offsets are nonnegative on
every reachable input because the scaled size never exceeds the canvas, so
Nat subtraction and division agree with the floor division of the source. -/
def generate_barcode_image (barcode_img : Img) (text_w text_h : Nat)
    (width_px height_px : Option Nat) : Img :=
  let combined := combinedImage barcode_img text_w text_h
  if !truthy width_px && !truthy height_px then combined
  else
    let orig_w := combined.width
    let orig_h := combined.height
    let nwh := scaledDims orig_w orig_h width_px height_px
    let new_w := nwh.1
    let new_h := nwh.2
    let resized := combined.resize new_w new_h
    let canvas_w := if truthy width_px then optVal width_px else new_w
    let canvas_h := if truthy height_px then optVal height_px else new_h
    let canvas := Img.new canvas_w canvas_h white
    let offset_x := (canvas_w - new_w) / 2
    let offset_y := (canvas_h - new_h) / 2
    canvas.paste resized offset_x offset_y

structure Font where
  name : String

def defaultFont : Font := ⟨"PIL-load-default"⟩

/-- The try/except around ImageFont.truetype: a capability probe with a
fallback to the built-in bitmap font; the probe result enters as an
Option. -/
def selectFont (preferred : Option Font) : Font :=
  match preferred with
  | some f => f
  | none => defaultFont

/-- generate_barcode_image with its effectful boundary: the external encoder
may reject the value (an exception, modelled with Except, not caught inside
the function), and the caption is measured with the selected font. -/
def generate_barcode_imageE (encode : String → Except String Img)
    (preferredFont : Option Font) (measureText : Font → String → Nat × Nat)
    (barcode_value : String) (width_px height_px : Option Nat) :
    Except String Img :=
  match encode barcode_value with
  | .error e => .error e
  | .ok barcode_img =>
    let font := selectFont preferredFont
    let m := measureText font barcode_value
    .ok (generate_barcode_image barcode_img m.1 m.2 width_px height_px)

/-- Python str.strip with no argument: drop whitespace from both ends. -/
def pyStrip (s : String) : String :=
  ⟨((s.data.dropWhile Char.isWhitespace).reverse.dropWhile Char.isWhitespace).reverse⟩

/-- Python str.lower over the character list. -/
def pyLower (s : String) : String :=
  ⟨s.data.map Char.toLower⟩

/-- Python str.endswith over the character lists. -/
def pyEndsWith (s suffix : String) : Bool :=
  suffix.data.isSuffixOf s.data

structure Row where
  barcode : String
  jpegName : String

/-- create_zip_of_barcodes: archive entries in row order, one per row whose
trimmed fields are both nonempty.  An exception raised inside the loop
propagates out of the function (the zip buffer is never returned), so the
whole call is Except and an error discards every entry. -/
def create_zip_of_barcodes (encode : String → Except String Img)
    (preferredFont : Option Font) (measureText : Font → String → Nat × Nat)
    (rows : List Row) (width_px height_px : Option Nat) :
    Except String (List (String × Img)) :=
  match rows with
  | [] => .ok []
  | row :: rest =>
    let barcode_value := pyStrip row.barcode
    let jpeg_name := pyStrip row.jpegName
    if barcode_value = "" ∨ jpeg_name = "" then
      create_zip_of_barcodes encode preferredFont measureText rest width_px height_px
    else
      match generate_barcode_imageE encode preferredFont measureText barcode_value
          width_px height_px with
      | .error e => .error e
      | .ok img =>
        let filename :=
          if !(pyEndsWith (pyLower jpeg_name) ".jpg") then jpeg_name ++ ".jpg"
          else jpeg_name
        match create_zip_of_barcodes encode preferredFont measureText rest
            width_px height_px with
        | .error e => .error e
        | .ok entries => .ok ((filename, img) :: entries)

/-- The result image r shows exactly the image inner: inner fits inside r
(never cropped), is centered (integer centering), and every pixel outside
the centered copy is white. -/
def Img.letterboxes (r inner : Img) : Prop :=
  inner.width ≤ r.width ∧ inner.height ≤ r.height ∧
  ∀ i j,
    r.pix i j =
      if (r.width - inner.width) / 2 ≤ i ∧
          i < (r.width - inner.width) / 2 + inner.width ∧
          (r.height - inner.height) / 2 ≤ j ∧
          j < (r.height - inner.height) / 2 + inner.height then
        inner.pix (i - (r.width - inner.width) / 2) (j - (r.height - inner.height) / 2)
      else white

lemma truthy_none_eq : truthy none = false := rfl

lemma truthy_some_pos {n : Nat} (h : 0 < n) : truthy (some n) = true := by
  simp [truthy]
  omega

lemma combinedImage_width_eq (bar : Img) (tw th : Nat) :
    (combinedImage bar tw th).width =
      max bar.width (max bar.width (tw + 2 * text_padding_x)) := rfl

lemma combinedImage_height_eq (bar : Img) (tw th : Nat) :
    (combinedImage bar tw th).height = bar.height + (th + 2 * text_padding_y) := rfl

lemma combinedImage_width_pos (bar : Img) (tw th : Nat) :
    0 < (combinedImage bar tw th).width := by
  rw [combinedImage_width_eq]
  have h : 0 < tw + 2 * text_padding_x := by unfold text_padding_x; omega
  exact lt_of_lt_of_le h (le_trans (Nat.le_max_right _ _) (Nat.le_max_right _ _))

lemma combinedImage_height_pos (bar : Img) (tw th : Nat) :
    0 < (combinedImage bar tw th).height := by
  rw [combinedImage_height_eq]
  unfold text_padding_y
  omega

/-- C10: a target dimension passed as 0 is falsy in the source conditionals,
so it is treated exactly as an unspecified dimension: with both dimensions 0
the combined image is returned unchanged, and with one dimension 0 the
function behaves as the single-dimension case for the other axis. -/
theorem C10_zero_dimension_as_unset (bar : Img) (tw th : Nat) :
    generate_barcode_image bar tw th (some 0) (some 0) = combinedImage bar tw th ∧
    (∀ hp, generate_barcode_image bar tw th (some 0) hp =
      generate_barcode_image bar tw th none hp) ∧
    (∀ wp, generate_barcode_image bar tw th wp (some 0) =
      generate_barcode_image bar tw th wp none) :=
  ⟨rfl, fun _ => rfl, fun _ => rfl⟩

/-- C3: with no target box the function returns the combined image
unchanged; its height is the bar height plus the caption strip height, its
width is the maximum of the bar width and the strip width, and its pixels
show the bar image and the caption strip, each horizontally centered, on
white. -/
theorem C3_no_target_returns_combined (bar : Img) (tw th : Nat) :
    generate_barcode_image bar tw th none none = combinedImage bar tw th ∧
    (combinedImage bar tw th).height = bar.height + (textStrip bar.width tw th).height ∧
    (combinedImage bar tw th).width = max bar.width (textStrip bar.width tw th).width ∧
    ∀ i j,
      (combinedImage bar tw th).pix i j =
        if (max bar.width (textStrip bar.width tw th).width -
              (textStrip bar.width tw th).width) / 2 ≤ i ∧
            i < (max bar.width (textStrip bar.width tw th).width -
              (textStrip bar.width tw th).width) / 2 + (textStrip bar.width tw th).width ∧
            bar.height ≤ j ∧ j < bar.height + (textStrip bar.width tw th).height then
          (textStrip bar.width tw th).pix
            (i - (max bar.width (textStrip bar.width tw th).width -
              (textStrip bar.width tw th).width) / 2)
            (j - bar.height)
        else if (max bar.width (textStrip bar.width tw th).width - bar.width) / 2 ≤ i ∧
            i < (max bar.width (textStrip bar.width tw th).width - bar.width) / 2 +
              bar.width ∧
            0 ≤ j ∧ j < 0 + bar.height then
          bar.pix
            (i - (max bar.width (textStrip bar.width tw th).width - bar.width) / 2)
            (j - 0)
        else white :=
  ⟨rfl, rfl, rfl, fun _ _ => rfl⟩

/-- C6: the caption strip is a white strip whose ink box sits at the
horizontally centered offset with equal vertical margins above and below the
text; strip width is max(bar width, text width + 2 horizontal paddings) and
strip height is text height + 2 vertical paddings. -/
theorem C6_caption_strip_centered (bar_w tw th : Nat) :
    (textStrip bar_w tw th).width = max bar_w (tw + 2 * text_padding_x) ∧
    (textStrip bar_w tw th).height = th + 2 * text_padding_y ∧
    (∀ i j,
      (textStrip bar_w tw th).pix i j =
        if ((textStrip bar_w tw th).width - tw) / 2 ≤ i ∧
            i < ((textStrip bar_w tw th).width - tw) / 2 + tw ∧
            text_padding_y ≤ j ∧ j < text_padding_y + th then black
        else white) ∧
    (textStrip bar_w tw th).height - (text_padding_y + th) = text_padding_y ∧
    ((textStrip bar_w tw th).width - tw) / 2 ≤
      ((textStrip bar_w tw th).width - tw) - ((textStrip bar_w tw th).width - tw) / 2 ∧
    ((textStrip bar_w tw th).width - tw) - ((textStrip bar_w tw th).width - tw) / 2 ≤
      ((textStrip bar_w tw th).width - tw) / 2 + 1 := by
  refine ⟨rfl, rfl, fun _ _ => rfl, ?_, ?_, ?_⟩
  · have hh : (textStrip bar_w tw th).height = th + 2 * text_padding_y := rfl
    rw [hh]
    unfold text_padding_y
    omega
  · omega
  · omega

lemma scaledDims_both_eq (ow oh W H : Nat) (hW : 0 < W) (hH : 0 < H) :
    scaledDims ow oh (some W) (some H) =
      (max 1 (Int.toNat ⌊(ow : ℚ) * min ((W : ℚ) / (ow : ℚ)) ((H : ℚ) / (oh : ℚ))⌋),
       max 1 (Int.toNat ⌊(oh : ℚ) * min ((W : ℚ) / (ow : ℚ)) ((H : ℚ) / (oh : ℚ))⌋)) := by
  simp [scaledDims, truthy_some_pos hW, truthy_some_pos hH, optVal]

lemma scaledDims_wonly_eq (ow oh W : Nat) (hW : 0 < W) :
    scaledDims ow oh (some W) none =
      (W, max 1 (Int.toNat ⌊(oh : ℚ) * ((W : ℚ) / (ow : ℚ))⌋)) := by
  simp [scaledDims, truthy_some_pos hW, truthy, optVal]
  exact fun h => absurd h hW.ne'

lemma scaledDims_honly_eq (ow oh H : Nat) (hH : 0 < H) :
    scaledDims ow oh none (some H) =
      (max 1 (Int.toNat ⌊(ow : ℚ) * ((H : ℚ) / (oh : ℚ))⌋), H) := by
  simp [scaledDims, truthy_some_pos hH, truthy, optVal]
  exact fun h => absurd h hH.ne'

lemma max_one_toNat_floor_min_left_le (ow W : Nat) (x : ℚ) (how : 0 < ow) (hW : 0 < W) :
    max 1 (Int.toNat ⌊(ow : ℚ) * min ((W : ℚ) / (ow : ℚ)) x⌋) ≤ W := by
  have h1 : (ow : ℚ) * min ((W : ℚ) / (ow : ℚ)) x ≤ (ow : ℚ) * ((W : ℚ) / (ow : ℚ)) :=
    mul_le_mul_of_nonneg_left (min_le_left _ _) (Nat.cast_nonneg ow)
  have h2 : (ow : ℚ) * ((W : ℚ) / (ow : ℚ)) = (W : ℚ) := by
    have how' : (ow : ℚ) ≠ 0 := Nat.cast_ne_zero.mpr (Nat.pos_iff_ne_zero.mp how)
    field_simp
  have h3 : ⌊(ow : ℚ) * min ((W : ℚ) / (ow : ℚ)) x⌋ ≤ (W : ℤ) := by
    have h4 := Int.floor_le_floor (le_of_le_of_eq h1 h2)
    simpa using h4
  omega

lemma max_one_toNat_floor_min_right_le (oh H : Nat) (x : ℚ) (hoh : 0 < oh) (hH : 0 < H) :
    max 1 (Int.toNat ⌊(oh : ℚ) * min x ((H : ℚ) / (oh : ℚ))⌋) ≤ H := by
  rw [min_comm]
  exact max_one_toNat_floor_min_left_le oh H x hoh hH

lemma gen_both_eq (bar : Img) (tw th W H : Nat) (hW : 0 < W) (hH : 0 < H) :
    generate_barcode_image bar tw th (some W) (some H) =
      (Img.new W H white).paste
        ((combinedImage bar tw th).resize
          (scaledDims (combinedImage bar tw th).width
            (combinedImage bar tw th).height (some W) (some H)).1
          (scaledDims (combinedImage bar tw th).width
            (combinedImage bar tw th).height (some W) (some H)).2)
        ((W - (scaledDims (combinedImage bar tw th).width
            (combinedImage bar tw th).height (some W) (some H)).1) / 2)
        ((H - (scaledDims (combinedImage bar tw th).width
            (combinedImage bar tw th).height (some W) (some H)).2) / 2) := by
  have hw := truthy_some_pos hW
  have hh := truthy_some_pos hH
  simp [generate_barcode_image, hw, hh, optVal]

/-- C1: with both target dimensions positive, the result has exactly size
(W, H), and it letterboxes the uniformly scaled combined image: the scaled
content fits (never cropped), is centered, and everything outside it is
white. -/
theorem C1_both_dims_exact_letterbox (bar : Img) (tw th W H : Nat)
    (hW : 0 < W) (hH : 0 < H) :
    (generate_barcode_image bar tw th (some W) (some H)).width = W ∧
    (generate_barcode_image bar tw th (some W) (some H)).height = H ∧
    Img.letterboxes (generate_barcode_image bar tw th (some W) (some H))
      ((combinedImage bar tw th).resize
        (scaledDims (combinedImage bar tw th).width
          (combinedImage bar tw th).height (some W) (some H)).1
        (scaledDims (combinedImage bar tw th).width
          (combinedImage bar tw th).height (some W) (some H)).2) := by
  have hnw : (scaledDims (combinedImage bar tw th).width
      (combinedImage bar tw th).height (some W) (some H)).1 ≤ W := by
    rw [scaledDims_both_eq _ _ _ _ hW hH]
    exact max_one_toNat_floor_min_left_le _ _ _ (combinedImage_width_pos bar tw th) hW
  have hnh : (scaledDims (combinedImage bar tw th).width
      (combinedImage bar tw th).height (some W) (some H)).2 ≤ H := by
    rw [scaledDims_both_eq _ _ _ _ hW hH]
    exact max_one_toNat_floor_min_right_le _ _ _ (combinedImage_height_pos bar tw th) hH
  rw [gen_both_eq bar tw th W H hW hH]
  exact ⟨rfl, rfl, hnw, hnh, fun _ _ => rfl⟩

/-- C4: with both target dimensions given, the scale applied to the combined
image is min(W / combinedWidth, H / combinedHeight); each scaled dimension
is the truncated product floored at 1 pixel, hence never zero, and the full
function pastes exactly that resized image centered on the white (W, H)
canvas. -/
theorem C4_scale_is_min_floored_at_one (bar : Img) (tw th W H : Nat)
    (hW : 0 < W) (hH : 0 < H) :
    scaledDims (combinedImage bar tw th).width (combinedImage bar tw th).height
        (some W) (some H) =
      (max 1 (Int.toNat ⌊((combinedImage bar tw th).width : ℚ) *
          min ((W : ℚ) / ((combinedImage bar tw th).width : ℚ))
            ((H : ℚ) / ((combinedImage bar tw th).height : ℚ))⌋),
       max 1 (Int.toNat ⌊((combinedImage bar tw th).height : ℚ) *
          min ((W : ℚ) / ((combinedImage bar tw th).width : ℚ))
            ((H : ℚ) / ((combinedImage bar tw th).height : ℚ))⌋)) ∧
    1 ≤ (scaledDims (combinedImage bar tw th).width
        (combinedImage bar tw th).height (some W) (some H)).1 ∧
    1 ≤ (scaledDims (combinedImage bar tw th).width
        (combinedImage bar tw th).height (some W) (some H)).2 ∧
    generate_barcode_image bar tw th (some W) (some H) =
      (Img.new W H white).paste
        ((combinedImage bar tw th).resize
          (scaledDims (combinedImage bar tw th).width
            (combinedImage bar tw th).height (some W) (some H)).1
          (scaledDims (combinedImage bar tw th).width
            (combinedImage bar tw th).height (some W) (some H)).2)
        ((W - (scaledDims (combinedImage bar tw th).width
            (combinedImage bar tw th).height (some W) (some H)).1) / 2)
        ((H - (scaledDims (combinedImage bar tw th).width
            (combinedImage bar tw th).height (some W) (some H)).2) / 2) := by
  refine ⟨scaledDims_both_eq _ _ _ _ hW hH, ?_, ?_, gen_both_eq bar tw th W H hW hH⟩
  · rw [scaledDims_both_eq _ _ _ _ hW hH]
    exact Nat.le_max_left 1 _
  · rw [scaledDims_both_eq _ _ _ _ hW hH]
    exact Nat.le_max_left 1 _

lemma gen_wonly_eq (bar : Img) (tw th W : Nat) (hW : 0 < W) :
    generate_barcode_image bar tw th (some W) none =
      (Img.new W
          (max 1 (Int.toNat ⌊((combinedImage bar tw th).height : ℚ) *
            ((W : ℚ) / ((combinedImage bar tw th).width : ℚ))⌋)) white).paste
        ((combinedImage bar tw th).resize W
          (max 1 (Int.toNat ⌊((combinedImage bar tw th).height : ℚ) *
            ((W : ℚ) / ((combinedImage bar tw th).width : ℚ))⌋)))
        0 0 := by
  have hw := truthy_some_pos hW
  simp [generate_barcode_image, scaledDims_wonly_eq _ _ _ hW, hw, truthy, optVal]
  exact fun h => absurd h hW.ne'

lemma gen_honly_eq (bar : Img) (tw th H : Nat) (hH : 0 < H) :
    generate_barcode_image bar tw th none (some H) =
      (Img.new
          (max 1 (Int.toNat ⌊((combinedImage bar tw th).width : ℚ) *
            ((H : ℚ) / ((combinedImage bar tw th).height : ℚ))⌋)) H white).paste
        ((combinedImage bar tw th).resize
          (max 1 (Int.toNat ⌊((combinedImage bar tw th).width : ℚ) *
            ((H : ℚ) / ((combinedImage bar tw th).height : ℚ))⌋)) H)
        0 0 := by
  have hh := truthy_some_pos hH
  simp [generate_barcode_image, scaledDims_honly_eq _ _ _ hH, hh, truthy, optVal]
  exact fun h => absurd h hH.ne'

/-- C2 counterexample: with bar image 200 x 71 and caption box 100 x 20, the
combined image is 200 x 101; at target width 601 the source computes
int(101 * (601 / 200)) = int(303.505) = 303, while rounding as the claim
states gives 304. -/
def barEx : Img := Img.new 200 71 black

theorem C2_counterexample :
    ((generate_barcode_image barEx 100 20 (some 601) none).height : ℤ) ≠
      round (((combinedImage barEx 100 20).height : ℚ) * (601 : ℚ) /
        ((combinedImage barEx 100 20).width : ℚ)) := by
  have h1 : (combinedImage barEx 100 20).height = 101 := rfl
  have h2 : (combinedImage barEx 100 20).width = 200 := rfl
  have hfloor : ⌊(101 : ℚ) * ((601 : ℚ) / (200 : ℚ))⌋ = 303 := by
    rw [Int.floor_eq_iff]
    norm_num
  have h3 : (generate_barcode_image barEx 100 20 (some 601) none).height = 303 := by
    rw [gen_wonly_eq barEx 100 20 601 (by norm_num)]
    show max 1 (Int.toNat ⌊((combinedImage barEx 100 20).height : ℚ) *
      ((601 : ℚ) / ((combinedImage barEx 100 20).width : ℚ))⌋) = 303
    rw [h1, h2]
    push_cast
    rw [hfloor]
    rfl
  have hround : round (((combinedImage barEx 100 20).height : ℚ) * (601 : ℚ) /
      ((combinedImage barEx 100 20).width : ℚ)) = 304 := by
    rw [h1, h2, round_eq]
    push_cast
    rw [Int.floor_eq_iff]
    norm_num
  rw [h3, hround]
  norm_num

/-- C2 amended: when only one target dimension is given, that dimension is
met exactly and the other is the truncated (floor, not round) product,
floored at 1 pixel: only width W gives height
max(1, int(combinedHeight * W / combinedWidth)); only height H gives width
max(1, int(combinedWidth * H / combinedHeight)). -/
theorem C2_single_dim_truncates (bar : Img) (tw th W H : Nat)
    (hW : 0 < W) (hH : 0 < H) :
    ((generate_barcode_image bar tw th (some W) none).width = W ∧
     (generate_barcode_image bar tw th (some W) none).height =
       max 1 (Int.toNat ⌊((combinedImage bar tw th).height : ℚ) *
         ((W : ℚ) / ((combinedImage bar tw th).width : ℚ))⌋)) ∧
    ((generate_barcode_image bar tw th none (some H)).height = H ∧
     (generate_barcode_image bar tw th none (some H)).width =
       max 1 (Int.toNat ⌊((combinedImage bar tw th).width : ℚ) *
         ((H : ℚ) / ((combinedImage bar tw th).height : ℚ))⌋)) := by
  rw [gen_wonly_eq bar tw th W hW, gen_honly_eq bar tw th H hH]
  exact ⟨⟨rfl, rfl⟩, rfl, rfl⟩

def encodeEx : String → Except String Img :=
  fun v => if v = "BAD" then .error "EncodingError" else .ok barEx

def measureEx : Font → String → Nat × Nat := fun _ _ => (100, 20)

def imgEx : Img := generate_barcode_image barEx 100 20 none none

/-- C9: when the preferred font is unavailable the compositor selects the
built-in default font and rendering continues; whenever the encoder accepts
the value the render call returns ok, so the font failure is never surfaced
to the caller. -/
theorem C9_font_fallback_never_surfaced (encode : String → Except String Img)
    (measureText : Font → String → Nat × Nat) (v : String)
    (wp hp : Option Nat) (img : Img) (h : encode v = .ok img) :
    selectFont none = defaultFont ∧
    generate_barcode_imageE encode none measureText v wp hp =
      .ok (generate_barcode_image img (measureText defaultFont v).1
        (measureText defaultFont v).2 wp hp) := by
  refine ⟨rfl, ?_⟩
  simp [generate_barcode_imageE, h, selectFont]

theorem C9_witness :
    encodeEx "OK" = .ok barEx ∧
    (selectFont none = defaultFont ∧
     generate_barcode_imageE encodeEx none measureEx "OK" none none =
       .ok (generate_barcode_image barEx (measureEx defaultFont "OK").1
         (measureEx defaultFont "OK").2 none none)) :=
  ⟨rfl, C9_font_fallback_never_surfaced encodeEx measureEx "OK" none none barEx rfl⟩

/-- C7: a row whose barcode value or file-name stem is empty after trimming
is skipped: the pipeline result on the batch with that row equals the result
without it, so no entry is produced and no error is raised for it. -/
theorem C7_blank_row_skipped (encode : String → Except String Img)
    (pf : Option Font) (measureText : Font → String → Nat × Nat)
    (r : Row) (rest : List Row) (wp hp : Option Nat)
    (h : pyStrip r.barcode = "" ∨ pyStrip r.jpegName = "") :
    create_zip_of_barcodes encode pf measureText (r :: rest) wp hp =
      create_zip_of_barcodes encode pf measureText rest wp hp := by
  simp only [create_zip_of_barcodes]
  rw [if_pos h]

theorem C7_witness :
    (pyStrip "   " = "" ∨ pyStrip "x" = "") ∧
    create_zip_of_barcodes encodeEx none measureEx [⟨"   ", "x"⟩] none none =
      create_zip_of_barcodes encodeEx none measureEx [] none none :=
  ⟨Or.inl rfl,
   C7_blank_row_skipped encodeEx none measureEx ⟨"   ", "x"⟩ [] none none (Or.inl rfl)⟩

/-- C5 counterexample: a batch [("BAD", "first"), ("OK", "second")] where the
encoder rejects "BAD" does not skip the failing row and continue: the error
propagates out of create_zip_of_barcodes and the whole batch is lost. -/
theorem C5_counterexample :
    create_zip_of_barcodes encodeEx none measureEx
      [⟨"BAD", "first"⟩, ⟨"OK", "second"⟩] none none =
      .error "EncodingError" := by
  rfl

/-- C5 amended: an encoder error propagates out of the render call with no
silent substitution, and it also propagates out of the batch pipeline,
aborting the remaining rows and discarding every entry (the surrounding UI
layer catches it), rather than skipping the failing row. -/
theorem C5_error_aborts_batch (encode : String → Except String Img)
    (pf : Option Font) (measureText : Font → String → Nat × Nat)
    (r : Row) (rest : List Row) (wp hp : Option Nat) (e : String)
    (hb : ¬ pyStrip r.barcode = "") (hn : ¬ pyStrip r.jpegName = "")
    (he : encode (pyStrip r.barcode) = .error e) :
    generate_barcode_imageE encode pf measureText (pyStrip r.barcode) wp hp =
      .error e ∧
    create_zip_of_barcodes encode pf measureText (r :: rest) wp hp = .error e := by
  have hgen : generate_barcode_imageE encode pf measureText (pyStrip r.barcode) wp hp =
      .error e := by
    simp [generate_barcode_imageE, he]
  refine ⟨hgen, ?_⟩
  simp only [create_zip_of_barcodes]
  rw [if_neg (fun h => h.elim hb hn), hgen]

theorem C5_abort_witness :
    (¬ pyStrip "BAD" = "") ∧ (¬ pyStrip "first" = "") ∧
    encodeEx (pyStrip "BAD") = .error "EncodingError" ∧
    (generate_barcode_imageE encodeEx none measureEx (pyStrip "BAD") none none =
       .error "EncodingError" ∧
     create_zip_of_barcodes encodeEx none measureEx
       [⟨"BAD", "first"⟩, ⟨"OK", "second"⟩] none none = .error "EncodingError") :=
  ⟨by decide, by decide, rfl,
   C5_error_aborts_batch encodeEx none measureEx ⟨"BAD", "first"⟩
     [⟨"OK", "second"⟩] none none "EncodingError" (by decide) (by decide) rfl⟩

/-- C8: the archive entry of a non-skipped row is the trimmed stem with
".jpg" appended exactly when the stem does not already end in ".jpg"
case-insensitively; a stem already ending in any casing of ".jpg" is used
unchanged. -/
theorem C8_entry_name_normalized (encode : String → Except String Img)
    (pf : Option Font) (measureText : Font → String → Nat × Nat)
    (r : Row) (rest : List Row) (wp hp : Option Nat) (img : Img)
    (entries : List (String × Img))
    (hb : ¬ pyStrip r.barcode = "") (hn : ¬ pyStrip r.jpegName = "")
    (hok : generate_barcode_imageE encode pf measureText (pyStrip r.barcode) wp hp =
      .ok img)
    (hrest : create_zip_of_barcodes encode pf measureText rest wp hp = .ok entries) :
    (pyEndsWith (pyLower (pyStrip r.jpegName)) ".jpg" = false →
      create_zip_of_barcodes encode pf measureText (r :: rest) wp hp =
        .ok ((pyStrip r.jpegName ++ ".jpg", img) :: entries)) ∧
    (pyEndsWith (pyLower (pyStrip r.jpegName)) ".jpg" = true →
      create_zip_of_barcodes encode pf measureText (r :: rest) wp hp =
        .ok ((pyStrip r.jpegName, img) :: entries)) := by
  constructor
  · intro hend
    simp only [create_zip_of_barcodes]
    rw [if_neg (fun h => h.elim hb hn), hok, hrest]
    simp [hend]
  · intro hend
    simp only [create_zip_of_barcodes]
    rw [if_neg (fun h => h.elim hb hn), hok, hrest]
    simp [hend]

theorem C8_witness :
    (¬ pyStrip "OK" = "") ∧ (¬ pyStrip "pic.JPG" = "") ∧
    generate_barcode_imageE encodeEx none measureEx (pyStrip "OK") none none =
      .ok imgEx ∧
    create_zip_of_barcodes encodeEx none measureEx [] none none = .ok [] ∧
    pyEndsWith (pyLower (pyStrip "pic.JPG")) ".jpg" = true ∧
    create_zip_of_barcodes encodeEx none measureEx [⟨"OK", "pic.JPG"⟩] none none =
      .ok [(pyStrip "pic.JPG", imgEx)] :=
  ⟨by decide, by decide, rfl, rfl, by decide,
   (C8_entry_name_normalized encodeEx none measureEx ⟨"OK", "pic.JPG"⟩ [] none none
     imgEx [] (by decide) (by decide) rfl rfl).2 (by decide)⟩

theorem C1_witness :
    0 < 600 ∧ 0 < 300 ∧
    ((generate_barcode_image barEx 100 20 (some 600) (some 300)).width = 600 ∧
     (generate_barcode_image barEx 100 20 (some 600) (some 300)).height = 300 ∧
     Img.letterboxes (generate_barcode_image barEx 100 20 (some 600) (some 300))
       ((combinedImage barEx 100 20).resize
         (scaledDims (combinedImage barEx 100 20).width
           (combinedImage barEx 100 20).height (some 600) (some 300)).1
         (scaledDims (combinedImage barEx 100 20).width
           (combinedImage barEx 100 20).height (some 600) (some 300)).2)) :=
  ⟨by decide, by decide,
   C1_both_dims_exact_letterbox barEx 100 20 600 300 (by decide) (by decide)⟩

theorem C2_amended_witness :
    0 < 601 ∧ 0 < 300 ∧
    (((generate_barcode_image barEx 100 20 (some 601) none).width = 601 ∧
      (generate_barcode_image barEx 100 20 (some 601) none).height =
        max 1 (Int.toNat ⌊((combinedImage barEx 100 20).height : ℚ) *
          ((601 : ℚ) / ((combinedImage barEx 100 20).width : ℚ))⌋)) ∧
     ((generate_barcode_image barEx 100 20 none (some 300)).height = 300 ∧
      (generate_barcode_image barEx 100 20 none (some 300)).width =
        max 1 (Int.toNat ⌊((combinedImage barEx 100 20).width : ℚ) *
          ((300 : ℚ) / ((combinedImage barEx 100 20).height : ℚ))⌋))) :=
  ⟨by decide, by decide,
   C2_single_dim_truncates barEx 100 20 601 300 (by decide) (by decide)⟩

theorem C4_witness :
    0 < 600 ∧ 0 < 300 ∧
    (scaledDims (combinedImage barEx 100 20).width (combinedImage barEx 100 20).height
        (some 600) (some 300) =
      (max 1 (Int.toNat ⌊((combinedImage barEx 100 20).width : ℚ) *
          min ((600 : ℚ) / ((combinedImage barEx 100 20).width : ℚ))
            ((300 : ℚ) / ((combinedImage barEx 100 20).height : ℚ))⌋),
       max 1 (Int.toNat ⌊((combinedImage barEx 100 20).height : ℚ) *
          min ((600 : ℚ) / ((combinedImage barEx 100 20).width : ℚ))
            ((300 : ℚ) / ((combinedImage barEx 100 20).height : ℚ))⌋)) ∧
     1 ≤ (scaledDims (combinedImage barEx 100 20).width
        (combinedImage barEx 100 20).height (some 600) (some 300)).1 ∧
     1 ≤ (scaledDims (combinedImage barEx 100 20).width
        (combinedImage barEx 100 20).height (some 600) (some 300)).2 ∧
     generate_barcode_image barEx 100 20 (some 600) (some 300) =
      (Img.new 600 300 white).paste
        ((combinedImage barEx 100 20).resize
          (scaledDims (combinedImage barEx 100 20).width
            (combinedImage barEx 100 20).height (some 600) (some 300)).1
          (scaledDims (combinedImage barEx 100 20).width
            (combinedImage barEx 100 20).height (some 600) (some 300)).2)
        ((600 - (scaledDims (combinedImage barEx 100 20).width
            (combinedImage barEx 100 20).height (some 600) (some 300)).1) / 2)
        ((300 - (scaledDims (combinedImage barEx 100 20).width
            (combinedImage barEx 100 20).height (some 600) (some 300)).2) / 2)) :=
  ⟨by decide, by decide,
   C4_scale_is_min_floored_at_one barEx 100 20 600 300 (by decide) (by decide)⟩
